import Mathlib

/-!
Verification development for the flight-delay dashboard `dashtut.py`.

The program loads a flight table and an airport reference table, draws a
10% sample of the flights at startup, and serves four callbacks that
recompute groupby/merge aggregates and chart data from those tables.
Numeric cells are modelled as rationals, shared-table columns as record
fields, and each callback as a pure function from its inputs and the two
startup tables to its figure payloads together with the post-call state
of the shared sample table (so that in-place column additions are
observable).
-/

attribute [local semireducible] Rat.add Rat.mul Rat.sub Rat.inv

/-- Decidable equality of callback results (`Except` carries the Python
exception message when a callback raises). -/
instance instDecEqExcept {ε α : Type} [DecidableEq ε] [DecidableEq α] :
    DecidableEq (Except ε α)
  | .error e, .error f =>
    if h : e = f then .isTrue (by rw [h])
    else .isFalse (fun hc => by injection hc with he; exact h he)
  | .error _, .ok _ => .isFalse (fun hc => Except.noConfusion hc)
  | .ok _, .error _ => .isFalse (fun hc => Except.noConfusion hc)
  | .ok x, .ok y =>
    if h : x = y then .isTrue (by rw [h])
    else .isFalse (fun hc => by injection hc with he; exact h he)

/-- One row of the sampled flight table (the columns `dashtut.py` reads). -/
structure Flight where
  month : Int
  dayOfWeek : Int
  depTime : Rat
  uniqueCarrier : String
  flightNum : Int
  origin : String
  dest : String
  distance : Rat
  airTime : Rat
  arrDelay : Rat
  depDelay : Rat
  cancelled : Rat
  diverted : Rat
  carrierDelay : Rat
  weatherDelay : Rat
  nasDelay : Rat
  securityDelay : Rat
  lateAircraftDelay : Rat
  deriving DecidableEq, Repr

/-- One row of the airport reference table after the startup column
selection `airports_df[['local_code','latitude_deg','longitude_deg','name','iata_code']]`. -/
structure Airport where
  local_code : String
  latitude_deg : Rat
  longitude_deg : Rat
  name : String
  iata_code : String
  deriving DecidableEq, Repr

/-- State of the shared `sample10_df` table after a callback: its rows plus
any columns a callback added in place (pandas column assignment on an alias
of the global table mutates the global). -/
structure SampleState where
  rows : List Flight
  extraCols : List (String × List Int)
  deriving DecidableEq, Repr

/-- `pandas` `Series.mean` on a column without missing values: sum divided
by the number of entries. -/
def pandasMean (l : List Rat) : Rat := l.sum / (l.length : Rat)

/-- Stable insertion of `a` into `l` before the first element `b` with
`le a b`. -/
def insertLe (le : α → α → Bool) (a : α) : List α → List α
  | [] => [a]
  | b :: bs => if le a b then a :: b :: bs else b :: insertLe le a bs

/-- Stable insertion sort; models the deterministic ordering pandas applies
to group keys and `sort_values` output. -/
def sortLe (le : α → α → Bool) : List α → List α
  | [] => []
  | a :: as => insertLe le a (sortLe le as)

theorem mem_insertLe (le : α → α → Bool) (a x : α) (l : List α) :
    x ∈ insertLe le a l ↔ x = a ∨ x ∈ l := by
  induction l with
  | nil => simp [insertLe]
  | cons b bs ih =>
    unfold insertLe
    cases hle : le a b with
    | true => simp
    | false =>
      simp only [Bool.false_eq_true, if_false, List.mem_cons, ih]
      tauto

theorem mem_sortLe (le : α → α → Bool) (x : α) (l : List α) :
    x ∈ sortLe le l ↔ x ∈ l := by
  induction l with
  | nil => simp [sortLe]
  | cons a as ih =>
    unfold sortLe
    rw [mem_insertLe, ih, List.mem_cons]

/-- Sorted distinct group keys of a string column, as `groupby` produces
(keys sorted ascending; `List.dedup` keeps one copy of each value — pandas
keeps the first occurrence, and only the key set matters downstream). -/
def groupKeysStr (rows : List α) (key : α → String) : List String :=
  sortLe (fun a b => decide (a ≤ b)) (rows.map key).dedup

/-- `sample10_df.groupby('Dest').agg(Avg_ArrDelay=('ArrDelay','mean')).reset_index()`. -/
def arrDelayTable (fr : List Flight) : List (String × Rat) :=
  (groupKeysStr fr (·.dest)).map (fun d =>
    (d, pandasMean ((fr.filter (fun r => decide (r.dest = d))).map (·.arrDelay))))

/-- One row of the per-origin metrics table (`avg_metrics` in the source),
including the `Avg_NonCarrierDelay` column added right after the groupby. -/
structure AvgMetricsRow where
  origin : String
  avg_DepDelay : Rat
  pct_Cancelled : Rat
  avg_WeatherDelay : Rat
  avg_NASDelay : Rat
  avg_SecurityDelay : Rat
  avg_LateAircraft : Rat
  avg_NonCarrierDelay : Rat
  deriving DecidableEq, Repr

/-- The `groupby('Origin').agg(...)` table plus the in-place
`avg_metrics['Avg_NonCarrierDelay'] = avg_metrics[[...]].sum(axis=1)` column:
mean departure delay, cancellation percentage (`x.mean() * 100`), the four
delay-component means, and their sum. -/
def avgMetricsTable (fr : List Flight) : List AvgMetricsRow :=
  (groupKeysStr fr (·.origin)).map (fun o =>
    let g := fr.filter (fun r => decide (r.origin = o))
    { origin := o
      avg_DepDelay := pandasMean (g.map (·.depDelay))
      pct_Cancelled := pandasMean (g.map (·.cancelled)) * 100
      avg_WeatherDelay := pandasMean (g.map (·.weatherDelay))
      avg_NASDelay := pandasMean (g.map (·.nasDelay))
      avg_SecurityDelay := pandasMean (g.map (·.securityDelay))
      avg_LateAircraft := pandasMean (g.map (·.lateAircraftDelay))
      avg_NonCarrierDelay :=
        pandasMean (g.map (·.weatherDelay)) + pandasMean (g.map (·.nasDelay))
          + pandasMean (g.map (·.securityDelay)) + pandasMean (g.map (·.lateAircraftDelay)) })

/-- Row of `metrics_df` after the outer merge of the arrival-delay table
with the per-origin metrics table; either side may be absent (pandas fills
the other side's columns with NaN, modelled as `none`). -/
structure MetricsRow where
  dest : Option String
  avg_ArrDelay : Option Rat
  origin : Option String
  avg_DepDelay : Option Rat
  pct_Cancelled : Option Rat
  avg_WeatherDelay : Option Rat
  avg_NASDelay : Option Rat
  avg_SecurityDelay : Option Rat
  avg_LateAircraft : Option Rat
  avg_NonCarrierDelay : Option Rat
  deriving DecidableEq, Repr

/-- Build a merged row from both sides of the outer merge. -/
def MetricsRow.both (p : String × Rat) (m : AvgMetricsRow) : MetricsRow :=
  ⟨some p.1, some p.2, some m.origin, some m.avg_DepDelay, some m.pct_Cancelled,
   some m.avg_WeatherDelay, some m.avg_NASDelay, some m.avg_SecurityDelay,
   some m.avg_LateAircraft, some m.avg_NonCarrierDelay⟩

/-- Merged row whose destination has no matching origin group. -/
def MetricsRow.leftOnly (p : String × Rat) : MetricsRow :=
  ⟨some p.1, some p.2, none, none, none, none, none, none, none, none⟩

/-- Merged row whose origin has no matching destination group. -/
def MetricsRow.rightOnly (m : AvgMetricsRow) : MetricsRow :=
  ⟨none, none, some m.origin, some m.avg_DepDelay, some m.pct_Cancelled,
   some m.avg_WeatherDelay, some m.avg_NASDelay, some m.avg_SecurityDelay,
   some m.avg_LateAircraft, some m.avg_NonCarrierDelay⟩

/-- `pd.merge(metrics_df, avg_metrics, left_on='Dest', right_on='Origin', how='outer')`:
matched pairs, then left-only rows in place, then unmatched right rows. -/
def outerMergeDestOrigin (arr : List (String × Rat)) (avg : List AvgMetricsRow) :
    List MetricsRow :=
  (arr.flatMap (fun p =>
    match avg.filter (fun m => decide (m.origin = p.1)) with
    | [] => [MetricsRow.leftOnly p]
    | ms => ms.map (fun m => MetricsRow.both p m))) ++
  ((avg.filter (fun m => decide (¬ arr.any (fun p => decide (p.1 = m.origin))))).map
    MetricsRow.rightOnly)

/-- `metrics_df['airport_code'] = metrics_df['Origin'].fillna(metrics_df['Dest'])`. -/
def airport_code (r : MetricsRow) : String := r.origin.getD (r.dest.getD "")

/-- Row of `merged_df`: a metrics row joined (left join on
`airport_code = local_code`) with the airport reference columns. -/
structure MergedRow where
  m : MetricsRow
  local_code : Option String
  latitude_deg : Option Rat
  longitude_deg : Option Rat
  name : Option String
  iata_code : Option String
  deriving DecidableEq, Repr

/-- `pd.merge(metrics_df, airports_df, left_on='airport_code', right_on='local_code', how='left')`:
left rows in order, duplicated per matching airport row, NaN airport
columns when unmatched. -/
def leftMergeAirports (rows : List MetricsRow) (airports : List Airport) :
    List MergedRow :=
  rows.flatMap (fun r =>
    match airports.filter (fun a => decide (a.local_code = airport_code r)) with
    | [] => [⟨r, none, none, none, none, none⟩]
    | ms => ms.map (fun a =>
        ⟨r, some a.local_code, some a.latitude_deg, some a.longitude_deg,
         some a.name, some a.iata_code⟩))

/-- The full first-tab merge pipeline on an (already month-filtered) table. -/
def mergedOf (filtered : List Flight) (airports : List Airport) : List MergedRow :=
  leftMergeAirports (outerMergeDestOrigin (arrDelayTable filtered) (avgMetricsTable filtered))
    airports

/-- Descending comparison on an optional metric column, NaN sorted last
(`sort_values(ascending=False)` with the default `na_position='last'`). -/
def optGe (a b : Option Rat) : Bool :=
  match a, b with
  | some x, some y => decide (y ≤ x)
  | some _, none => true
  | none, some _ => false
  | none, none => true

/-- `DataFrame.nlargest(n, col)`: rows with a missing value in the sort
column are dropped, the rest sorted descending, first `n` kept. -/
def nlargestMerged (n : Nat) (col : MergedRow → Option Rat) (rows : List MergedRow) :
    List MergedRow :=
  (sortLe (fun a b => optGe (col a) (col b)) (rows.filter (fun r => (col r).isSome))).take n

/-- Data behind the `create_airport_map` figure: all merged rows (the geo
scatter) plus the highlighted top-3 rows. -/
structure MapFigure where
  data : List MergedRow
  top : List MergedRow
  deriving DecidableEq, Repr

/-- Data behind a `px.bar` figure: the plotted (x, y) pairs and the title. -/
structure BarFigure where
  rows : List (String × Option Rat)
  title : String
  deriving DecidableEq, Repr

/-- `sort_values(col, ascending=False).head(10)` rows of `create_metric_chart`. -/
def sortDescHead10 (col : MergedRow → Option Rat) (rows : List MergedRow) :
    List MergedRow :=
  (sortLe (fun a b => optGe (col a) (col b)) rows).take 10

/-- `create_metric_chart(data, metric)`: top-10 bar chart of the selected
metric, or the empty placeholder bar chart for an unrecognised metric. -/
def create_metric_chart (data : List MergedRow) (metric : String) : BarFigure :=
  if metric = "ArrDelay" then
    ⟨(sortDescHead10 (fun r => r.m.avg_ArrDelay) data).map
       (fun r => (airport_code r.m, r.m.avg_ArrDelay)),
     "Average arrival delay per airport"⟩
  else if metric = "Cancelled" then
    ⟨(sortDescHead10 (fun r => r.m.pct_Cancelled) data).map
       (fun r => (airport_code r.m, r.m.pct_Cancelled)),
     "Percentage of cancelled flights"⟩
  else if metric = "NonCarrierDelay" then
    ⟨(sortDescHead10 (fun r => r.m.avg_NonCarrierDelay) data).map
       (fun r => (airport_code r.m, r.m.avg_NonCarrierDelay)),
     "Average non-carrier delays"⟩
  else if metric = "DepDelay" then
    ⟨(sortDescHead10 (fun r => r.m.avg_DepDelay) data).map
       (fun r => (airport_code r.m, r.m.avg_DepDelay)),
     "Average departure delay per airport"⟩
  else
    ⟨[], "Select a metric to view data"⟩

/-- The `if selected_metric == ... : top_airports = merged_df.nlargest(3, ...)`
chain; no branch assigns `top_airports` for an unrecognised metric, so the
subsequent use raises `UnboundLocalError` — modelled as `none`. -/
def topAirports (metric : String) (merged : List MergedRow) :
    Option (List MergedRow) :=
  if metric = "ArrDelay" then some (nlargestMerged 3 (fun r => r.m.avg_ArrDelay) merged)
  else if metric = "Cancelled" then some (nlargestMerged 3 (fun r => r.m.pct_Cancelled) merged)
  else if metric = "NonCarrierDelay" then some (nlargestMerged 3 (fun r => r.m.avg_NonCarrierDelay) merged)
  else if metric = "DepDelay" then some (nlargestMerged 3 (fun r => r.m.avg_DepDelay) merged)
  else none

/-- An entry of the month checklist: the string value `'All'` or a month
number. -/
inductive MonthSel where
  | all
  | num (n : Int)
  deriving DecidableEq, Repr

/-- The month filter at the top of `update_map_and_chart`:
`sample10_df` unchanged when `'All'` is ticked, else
`sample10_df[sample10_df['Month'].isin(selected_months)]`. -/
def filterMonths (sel : List MonthSel) (s : List Flight) : List Flight :=
  if MonthSel.all ∈ sel then s
  else s.filter (fun r => decide (MonthSel.num r.month ∈ sel))

/-- `sample10_df.groupby('Month').size()`: month keys ascending with their
row counts. -/
def monthlyCounts (s : List Flight) : List (Int × Nat) :=
  (sortLe (fun a b => decide (a ≤ b)) (s.map (·.month)).dedup).map
    (fun mth => (mth, (s.filter (fun r => decide (r.month = mth))).length))

/-- Data behind the `px.line` monthly-counts figure. -/
structure LineFigure where
  points : List (Int × Nat)
  title : String
  deriving DecidableEq, Repr

/-- The map and bar-chart half of the first-tab callback, computed from the
month-filtered table; fails exactly when no branch assigned `top_airports`. -/
def mapAndChartOf (metric : String) (filtered : List Flight)
    (airports : List Airport) : Except String (MapFigure × BarFigure) :=
  let merged := mergedOf filtered airports
  match topAirports metric merged with
  | none => .error "UnboundLocalError: top_airports"
  | some top => .ok (⟨merged, top⟩, create_metric_chart merged metric)

/-- The monthly line chart, computed from the full (unfiltered) sample. -/
def lineChartOf (sample10 : List Flight) : LineFigure :=
  ⟨monthlyCounts sample10, "Monthly Flight Counts"⟩

/-- `update_map_and_chart(selected_metric, selected_months)`: filters the
sample by month, recomputes both aggregate tables and the merges, renders
map and bar chart from the filtered data and the line chart from the full
sample. -/
def updateMapAndChart (selected_metric : String) (selected_months : List MonthSel)
    (sample10 : List Flight) (airports : List Airport) :
    Except String (MapFigure × BarFigure × LineFigure) :=
  (mapAndChartOf selected_metric (filterMonths selected_months sample10) airports).map
    (fun p => (p.1, p.2, lineChartOf sample10))

/-- Python truthiness of the origin dropdown value (`if origin_airport:`):
`None` and the empty string are falsy. -/
def pyTruthyStr : Option String → Bool
  | none => false
  | some s => !s.isEmpty

/-- Python `int()` conversion of an exact numeric value
(`(...).astype(int)`): truncation toward zero. -/
def pyTrunc (q : Rat) : Int := q.num.tdiv (q.den : Int)

/-- A left join of arbitrary rows against the airport table on a string key
(`pd.merge(..., right_on='local_code', how='left')`): left order kept, one
output row per matching airport row, `none` when unmatched. -/
def leftJoin (rows : List α) (key : α → String) (airports : List Airport) :
    List (α × Option Airport) :=
  rows.flatMap (fun r =>
    match airports.filter (fun a => decide (a.local_code = key r)) with
    | [] => [(r, none)]
    | ms => ms.map (fun a => (r, some a)))

/-- One aggregated route of the second tab's `route_stats`:
group key (origin, destination and both coordinate pairs) with flight
count, mean arrival delay and mean air time. -/
structure RouteStat where
  origin : String
  dest : String
  lat_o : Rat
  lon_o : Rat
  lat_d : Rat
  lon_d : Rat
  nFlights : Nat
  avgArrDelay : Rat
  avgAirTime : Rat
  deriving DecidableEq, Repr

/-- Group key of the `route_stats` groupby; rows whose merge left a
coordinate missing have a NaN key column and are dropped by pandas
(`dropna=True`), modelled by `none`. -/
def routeKeyOf : (Flight × Option Airport) × Option Airport →
    Option (String × String × Rat × Rat × Rat × Rat)
  | ((f, some ao), some ad) =>
    some (f.origin, f.dest, ao.latitude_deg, ao.longitude_deg,
          ad.latitude_deg, ad.longitude_deg)
  | _ => none

/-- `route_coords.groupby([...6 key columns...]).agg({'FlightNum':'count','ArrDelay':'mean','AirTime':'mean'})`
(group-key order is immaterial downstream; pandas sorts the keys). -/
def route_stats (rc : List ((Flight × Option Airport) × Option Airport)) :
    List RouteStat :=
  ((rc.filterMap routeKeyOf).dedup).map (fun k =>
    let g := rc.filter (fun r => decide (routeKeyOf r = some k))
    let gf := g.map (fun r => r.1.1)
    ⟨k.1, k.2.1, k.2.2.1, k.2.2.2.1, k.2.2.2.2.1, k.2.2.2.2.2,
     g.length, pandasMean (gf.map (·.arrDelay)), pandasMean (gf.map (·.airTime))⟩)

/-- `df_routes.groupby(['Origin','Dest']).size().reset_index(name='flights')`:
route pairs sorted lexicographically with their counts. -/
def top_routes_of (df_routes : List Flight) : List (String × String × Nat) :=
  (sortLe (fun a b => decide (a.1 < b.1) || (decide (a.1 = b.1) && decide (a.2 ≤ b.2)))
      ((df_routes.map (fun r => (r.origin, r.dest))).dedup)).map
    (fun p => (p.1, p.2,
      (df_routes.filter (fun r => decide (r.origin = p.1) && decide (r.dest = p.2))).length))

/-- `top_routes.nlargest(5, 'flights')`. -/
def nlargestRoutes (n : Nat) (l : List (String × String × Nat)) :
    List (String × String × Nat) :=
  (sortLe (fun a b => decide (b.2.2 ≤ a.2.2)) l).take n

/-- One row of the second tab's `performance_metrics`: per-destination
flight count, mean arrival delay, cancellation percentage (mean times 100,
applied in place) and mean air time. -/
structure PerfRow where
  dest : String
  flightNum : Nat
  arrDelay : Rat
  cancelled : Rat
  airTime : Rat
  deriving DecidableEq, Repr

/-- `df_routes.groupby('Dest').agg({...})` followed by
`performance_metrics['Cancelled'] = performance_metrics['Cancelled'] * 100`. -/
def performance_metrics_of (df_routes : List Flight) : List PerfRow :=
  (groupKeysStr df_routes (·.dest)).map (fun d =>
    let g := df_routes.filter (fun r => decide (r.dest = d))
    ⟨d, g.length, pandasMean (g.map (·.arrDelay)),
     pandasMean (g.map (·.cancelled)) * 100, pandasMean (g.map (·.airTime))⟩)

/-- `performance_metrics.nlargest(10, y_val)` (counts and delays are never
NaN here, so no rows are dropped). -/
def nlargestPerf (n : Nat) (col : PerfRow → Rat) (l : List PerfRow) : List PerfRow :=
  (sortLe (fun a b => decide (col b ≤ col a)) l).take n

/-- The plotted series of the time-of-day figure: for each hour
(`(DepTime / 100).astype(int)`, keys ascending) the number of flights.
The source aggregation also computes mean delay and a cancellation
percentage per hour, but only `Hour` and `FlightNum` are drawn. -/
def timeSeriesOf (df_routes : List Flight) : List (Int × Nat) :=
  let hours := df_routes.map (fun r => pyTrunc (r.depTime / 100))
  (sortLe (fun a b => decide (a ≤ b)) hours.dedup).map
    (fun h => (h, (hours.filter (fun x => decide (x = h))).length))

/-- The figure payloads of `origin_airport_analysis`: route map traces (the
aggregated routes and their hover texts), the sunburst rows
(origin, destination, carrier, distance), the destination bar chart with
its title and y-axis label, and the time-of-day series. -/
structure OriginOutput where
  routeMap : List RouteStat
  routeTexts : List String
  sunburst : List (String × String × String × Rat)
  barRows : List (String × Rat)
  barTitle : String
  barYLabel : String
  timeSeries : List (Int × Nat)
  deriving DecidableEq, Repr

/-- Post-call state of `sample10_df` for the second-tab callback: when the
origin dropdown is falsy, `df_routes` aliases the global table, so
`df_routes['Hour'] = (df_routes['DepTime'] / 100).astype(int)` adds an
`Hour` column to `sample10_df` itself; a truthy origin filters into a copy
and the global is untouched. -/
def originAnalysisPost (truthy : Bool) (sample10 : List Flight) : SampleState :=
  if truthy then ⟨sample10, []⟩
  else ⟨sample10, [("Hour", sample10.map (fun r => pyTrunc (r.depTime / 100)))]⟩

/-- `origin_airport_analysis(origin_airport, metric)`: filters the sample
by origin (or takes the whole table when the dropdown is falsy), builds the
route map, sunburst, destination bar chart and time-of-day series; when
`metric` is neither `'flights'` nor `'delay'`, `y_val` is never assigned
and its use raises, before the `Hour` column assignment is reached. -/
def origin_airport_analysis (origin_airport : Option String) (metric : String)
    (sample10 : List Flight) (airports : List Airport) :
    Except String OriginOutput × SampleState :=
  let truthy := pyTruthyStr origin_airport
  let df_routes :=
    if truthy then sample10.filter (fun r => decide (some r.origin = origin_airport))
    else sample10
  let rc := leftJoin (leftJoin df_routes (·.origin) airports) (fun p => p.1.dest) airports
  let rs := route_stats rc
  let texts := rs.map (fun r =>
    r.origin ++ " → " ++ r.dest ++ "<br>Flights: " ++ toString r.nFlights)
  let top5 := nlargestRoutes 5 (top_routes_of df_routes)
  let competition := df_routes.filter (fun r =>
    top5.any (fun t => decide (t.1 = r.origin) && decide (t.2.1 = r.dest)))
  let sunb := competition.map (fun r => (r.origin, r.dest, r.uniqueCarrier, r.distance))
  let perf := performance_metrics_of df_routes
  if metric = "flights" then
    (.ok ⟨rs, texts, sunb,
          (nlargestPerf 10 (fun p => (p.flightNum : Rat)) perf).map
            (fun p => (p.dest, (p.flightNum : Rat))),
          "Number of flights by destination", "Total flights",
          timeSeriesOf df_routes⟩,
     originAnalysisPost truthy sample10)
  else if metric = "delay" then
    (.ok ⟨rs, texts, sunb,
          (nlargestPerf 10 (·.arrDelay) perf).map (fun p => (p.dest, p.arrDelay)),
          "Average delay by destination", "Minutes",
          timeSeriesOf df_routes⟩,
     originAnalysisPost truthy sample10)
  else
    (.error "UnboundLocalError: y_val", ⟨sample10, []⟩)

/-- The message `html.Div` of `dynamic_dropdown`: empty for a `None`
origin, otherwise the possible-destination count shown as
`There are n possible destinations`. -/
inductive DropMessage where
  | emptyDiv
  | countMsg (n : Nat)
  deriving DecidableEq, Repr

/-- Rendered text of the dropdown message. -/
def messageText : DropMessage → String
  | .emptyDiv => ""
  | .countMsg n => "There are " ++ toString n ++ " possible destinations"

/-- One destination dropdown entry built from an airport reference row. -/
structure DropOption where
  label : String
  value : String
  deriving DecidableEq, Repr

/-- `dynamic_dropdown(origin)`: for a `None` origin an empty option list
and an empty message; otherwise the airport rows whose `iata_code` is
among the distinct destinations reachable from `origin` in the sample,
rendered as options, plus the count message. -/
def dynamic_dropdown (origin : Option String) (sample10 : List Flight)
    (airports : List Airport) : List DropOption × DropMessage :=
  match origin with
  | none => ([], .emptyDiv)
  | some o =>
    let destinationcodes := ((sample10.filter (fun r => decide (r.origin = o))).map (·.dest)).dedup
    let destinations := airports.filter (fun a => decide (a.iata_code ∈ destinationcodes))
    let n := destinations.length
    (destinations.map (fun a => ⟨a.iata_code ++ ": " ++ a.name, a.iata_code⟩),
     .countMsg n)

/-- A figure of the connection-analysis tab: the empty `go.Figure()`, a bar
chart of per-period mean delays (missing periods are NaN after `reindex`),
or a pie chart. -/
inductive ConnFig where
  | emptyFig
  | bar (xs : List String) (ys : List (Option Rat)) (title : String)
  | pie (labels : List String) (values : List Rat) (title : String)
  deriving DecidableEq, Repr

/-- Month names used by the connection tab. -/
def monthNames : List String :=
  ["January", "February", "March", "April", "May", "June", "July", "August",
   "September", "October", "November", "December"]

/-- Weekday names used by the connection tab. -/
def weekdayNames : List String :=
  ["Monday", "Tuesday", "Wednesday", "Thursday", "Friday", "Saturday", "Sunday"]

/-- Python list indexing `l[i]` with negative-index wraparound; out of
range raises `IndexError`. -/
def pyListIndex (l : List String) (i : Int) : Except String String :=
  if 0 ≤ i ∧ i < (l.length : Int) then .ok (l.getD i.toNat "")
  else if 0 ≤ i + (l.length : Int) ∧ i < 0 then .ok (l.getD (i + (l.length : Int)).toNat "")
  else .error "IndexError"

/-- The bar-plot half of the connection callback: maps the `Month` or
`DayOfWeek` column to period names (`names[x - 1]`), groups the arrival
delays by period and reindexes over all period names; an unrecognised
timeframe leaves `avg_delay` unassigned, so its use raises. -/
def connBarOf (timeframe : String) (selected : List Flight) : Except String ConnFig :=
  if timeframe = "Month" then do
    let names ← selected.mapM (fun r => pyListIndex monthNames (r.month - 1))
    let rows := selected.zip names
    let avg_delay := monthNames.map (fun mth =>
      let g := (rows.filter (fun p => decide (p.2 = mth))).map (fun p => p.1.arrDelay)
      if g.isEmpty then none else some (pandasMean g))
    .ok (.bar monthNames avg_delay "Average Minutes of Arrival Delay in Delayed Flights")
  else if timeframe = "Day" then do
    let names ← selected.mapM (fun r => pyListIndex weekdayNames (r.dayOfWeek - 1))
    let rows := selected.zip names
    let avg_delay := weekdayNames.map (fun d =>
      let g := (rows.filter (fun p => decide (p.2 = d))).map (fun p => p.1.arrDelay)
      if g.isEmpty then none else some (pandasMean g))
    .ok (.bar weekdayNames avg_delay "Average Minutes of Arrival Delay in Delayed Flights")
  else .error "UnboundLocalError: avg_delay"

/-- `handledelaytype(row)`: classifies a flight of the selected connection. -/
def handledelaytype (r : Flight) : String :=
  if r.cancelled = 1 then "Cancelled"
  else if r.diverted = 1 then "Diverted"
  else if r.arrDelay > 60 then "Severe Delay (>60 min)"
  else if r.arrDelay > 15 then "Considerable Delay (>15 min, <60 min)"
  else "Negligable Delay (<15 min)"

/-- `copy['delaytype'].value_counts()`: distinct labels with their counts,
sorted by count descending (first occurrence kept on ties). -/
def delayTypeCounts (selected : List Flight) : List (String × Nat) :=
  let vals := selected.map handledelaytype
  sortLe (fun a b => decide (b.2 ≤ a.2))
    (vals.dedup.map (fun v => (v, (vals.filter (fun x => decide (x = v))).length)))

/-- `flight_connection_analysis_update(Origin, Destination, timeframe)`:
short-circuits to four empty figures when either dropdown is `None` or the
selected connection has no rows; otherwise builds the delay bar plot, the
delay-type mean pie, the carrier-count pie and the delay-distribution pie.
All work happens on copies of the filtered rows (boolean-mask indexing
copies), so the shared sample table is unchanged in every case. -/
def flight_connection_analysis_update (Origin Destination : Option String)
    (timeframe : String) (sample10 : List Flight) :
    Except String (ConnFig × ConnFig × ConnFig × ConnFig) × SampleState :=
  let post : SampleState := ⟨sample10, []⟩
  match Origin, Destination with
  | some o, some d =>
    let selected := sample10.filter (fun r => decide (r.origin = o) && decide (r.dest = d))
    if selected.isEmpty then (.ok (.emptyFig, .emptyFig, .emptyFig, .emptyFig), post)
    else
      match connBarOf timeframe selected with
      | .error e => (.error e, post)
      | .ok barFig =>
        let delaycontributers : List (String × Rat) :=
          [("CarrierDelay", pandasMean (selected.map (·.carrierDelay))),
           ("WeatherDelay", pandasMean (selected.map (·.weatherDelay))),
           ("NASDelay", pandasMean (selected.map (·.nasDelay))),
           ("SecurityDelay", pandasMean (selected.map (·.securityDelay))),
           ("LateAircraftDelay", pandasMean (selected.map (·.lateAircraftDelay)))]
        let delayPie := ConnFig.pie (delaycontributers.map (·.1))
          (delaycontributers.map (·.2)) "Average Delay Contribution by Type"
        let carriers := sortLe (fun a b => decide (a ≤ b)) (selected.map (·.uniqueCarrier)).dedup
        let carrierPie := ConnFig.pie carriers
          (carriers.map (fun c =>
            ((selected.filter (fun r => decide (r.uniqueCarrier = c))).length : Rat)))
          "Carrier Contribution"
        let dtc := delayTypeCounts selected
        let distPie := ConnFig.pie (dtc.map (·.1)) (dtc.map (fun p => (p.2 : Rat)))
          "Delay Distribution"
        (.ok (barFig, delayPie, carrierPie, distPie), post)
  | _, _ => (.ok (.emptyFig, .emptyFig, .emptyFig, .emptyFig), post)

/-- Modelled from the spec: the startup sampler. `sample10_df =
df.sample(frac=0.1, random_state=11)` is pandas library code, not part of
this repository; the spec describes it as a component that "draws a
reproducible random subset of rows". Modelled as a pseudo-random selection
driven by a linear congruential generator: with a fixed `random_state` the
generator is seeded from it, and the ambient process entropy (which is what
varies between two runs of the program) is consumed only when no seed is
given. -/
def lcgNext (st : Nat) : Nat := (1103515245 * st + 12345) % 2 ^ 31

/-- Select roughly a tenth of the rows, driven by the generator stream. -/
def prngSelect (st : Nat) : List Flight → List Flight
  | [] => []
  | r :: rs =>
    let st2 := lcgNext st
    if st2 % 10 = 0 then r :: prngSelect st2 rs else prngSelect st2 rs

/-- Modelled from the spec: `DataFrame.sample` seeds its generator from
`random_state` when one is given and from ambient entropy otherwise. -/
def pandasSample (rows : List Flight) (random_state : Option Nat) (entropy : Nat) :
    List Flight :=
  match random_state with
  | some seed => prngSelect seed rows
  | none => prngSelect entropy rows

/-- The startup sampling line `df.sample(frac=0.1, random_state=11)`,
parameterised by the entropy of the particular run. -/
def startupSample (df : List Flight) (entropy : Nat) : List Flight :=
  pandasSample df (some 11) entropy

/-- Manual (spec-side) definition for C4: the arithmetic mean of the
`ArrDelay` values of the subset's flights arriving at `d`. -/
def manualAvgArrDelay (fr : List Flight) (d : String) : Rat :=
  (((fr.filter (fun r => decide (r.dest = d))).map (·.arrDelay)).sum)
    / ((fr.filter (fun r => decide (r.dest = d))).length : Rat)

/-- Manual (spec-side) definition for C4: 100 times the fraction of the
subset's flights departing from `o` whose `Cancelled` flag is 1. -/
def manualPctCancelled (fr : List Flight) (o : String) : Rat :=
  100 * (((fr.filter (fun r => decide (r.origin = o))).filter
            (fun r => decide (r.cancelled = 1))).length : Rat)
      / ((fr.filter (fun r => decide (r.origin = o))).length : Rat)

/-- Manual (spec-side) definition for C5, following the glossary: the
per-group mean of the per-flight sums of the weather, security,
national-airspace and late-aircraft delay minutes. -/
def manualAvgNonCarrierDelay (fr : List Flight) (o : String) : Rat :=
  (((fr.filter (fun r => decide (r.origin = o))).map
      (fun r => r.weatherDelay + r.securityDelay + r.nasDelay + r.lateAircraftDelay)).sum)
    / ((fr.filter (fun r => decide (r.origin = o))).length : Rat)

/-- Manual (spec-side) definition for C9: the number of distinct
destination codes reachable from `o` in the sample that also appear as an
`iata_code` in the airport reference table. -/
def reachableListedCount (o : String) (sample10 : List Flight)
    (airports : List Airport) : Nat :=
  ((((sample10.filter (fun r => decide (r.origin = o))).map (·.dest)).dedup).filter
     (fun c => decide (c ∈ airports.map (·.iata_code)))).length

theorem mem_filterMonths {r : Flight} {sel : List MonthSel} {s : List Flight}
    (h : r ∈ filterMonths sel s) : r ∈ s := by
  unfold filterMonths at h
  split at h
  · exact h
  · exact List.mem_of_mem_filter h

theorem sum_eq_count_ones (l : List Rat) (h : ∀ x ∈ l, x = 0 ∨ x = 1) :
    l.sum = ((l.filter (fun x => decide (x = 1))).length : Rat) := by
  induction l with
  | nil => simp
  | cons a as ih =>
    have ha := h a (List.mem_cons_self a as)
    have ih2 := ih (fun x hx => h x (List.mem_cons_of_mem a hx))
    rcases ha with h0 | h1
    · subst h0
      simp [List.filter_cons, ih2]
    · subst h1
      simp [List.filter_cons, ih2]
      ring

theorem filter_of_map (f : α → β) (p : β → Bool) (l : List α) :
    (l.map f).filter p = (l.filter (fun a => p (f a))).map f := by
  induction l with
  | nil => rfl
  | cons a as ih =>
    cases h : p (f a) <;> simp [List.filter_cons, h, ih]

theorem sum_map_delays (l : List Flight) :
    (l.map (fun r => r.weatherDelay + r.securityDelay + r.nasDelay + r.lateAircraftDelay)).sum
      = (l.map (·.weatherDelay)).sum + (l.map (·.securityDelay)).sum
        + (l.map (·.nasDelay)).sum + (l.map (·.lateAircraftDelay)).sum := by
  induction l with
  | nil => simp
  | cons a as ih =>
    simp [ih]
    ring

theorem length_filter_iata (a : List Airport) (D : List String) :
    (a.filter (fun x => decide (x.iata_code ∈ D))).length
      = ((a.map (·.iata_code)).filter (fun c => decide (c ∈ D))).length := by
  induction a with
  | nil => rfl
  | cons x xs ih =>
    cases h : decide (x.iata_code ∈ D) <;> simp [List.filter_cons, h, ih]

theorem length_filter_mem_comm (A D : List String) (hA : A.Nodup) (hD : D.Nodup) :
    (A.filter (fun x => decide (x ∈ D))).length
      = (D.filter (fun x => decide (x ∈ A))).length := by
  classical
  rw [← List.toFinset_card_of_nodup (hA.filter _),
      ← List.toFinset_card_of_nodup (hD.filter _),
      List.toFinset_filter, List.toFinset_filter]
  have hAD : A.toFinset.filter (fun a => (decide (a ∈ D) : Bool) = true)
      = A.toFinset ∩ D.toFinset := by
    ext x
    simp
  have hDA : D.toFinset.filter (fun a => (decide (a ∈ A) : Bool) = true)
      = D.toFinset ∩ A.toFinset := by
    ext x
    simp
  rw [hAD, hDA, Finset.inter_comm]

theorem updateMapAndChart_invalid_metric (m : String) (sel : List MonthSel)
    (s : List Flight) (a : List Airport) (h1 : m ≠ "ArrDelay") (h2 : m ≠ "Cancelled")
    (h3 : m ≠ "NonCarrierDelay") (h4 : m ≠ "DepDelay") :
    updateMapAndChart m sel s a = .error "UnboundLocalError: top_airports" := by
  unfold updateMapAndChart mapAndChartOf topAirports
  simp [h1, h2, h3, h4, Except.map]

theorem updateMapAndChart_valid_metric (m : String) (sel : List MonthSel)
    (s : List Flight) (a : List Airport)
    (h : m = "ArrDelay" ∨ m = "Cancelled" ∨ m = "NonCarrierDelay" ∨ m = "DepDelay") :
    ∃ out, updateMapAndChart m sel s a = .ok out := by
  rcases h with h | h | h | h <;> subst h <;> exact ⟨_, rfl⟩

theorem origin_analysis_invalid_metric (o : Option String) (m : String)
    (s : List Flight) (a : List Airport) (h1 : m ≠ "flights") (h2 : m ≠ "delay") :
    origin_airport_analysis o m s a = (.error "UnboundLocalError: y_val", ⟨s, []⟩) := by
  unfold origin_airport_analysis
  simp [h1, h2]

theorem origin_analysis_valid_metric (o : Option String) (m : String)
    (s : List Flight) (a : List Airport) (h : m = "flights" ∨ m = "delay") :
    ∃ out, origin_airport_analysis o m s a
      = (.ok out, originAnalysisPost (pyTruthyStr o) s) := by
  rcases h with h | h <;> subst h <;> exact ⟨_, rfl⟩

/-- Fixture flight JFK → LAX in January, not cancelled, departure 09:30. -/
def f1 : Flight :=
  ⟨1, 3, 930, "AA", 100, "JFK", "LAX", 2475, 300, 10, 5, 0, 0, 0, 2, 3, 0, 4⟩

/-- Fixture flight JFK → ORD in February, cancelled, departure 13:45. -/
def f2 : Flight :=
  ⟨2, 5, 1345, "UA", 200, "JFK", "ORD", 740, 110, 30, 25, 1, 0, 6, 0, 7, 1, 0⟩

/-- Fixture sampled table. -/
def fxRows : List Flight := [f1, f2]

/-- Fixture airport reference table. -/
def fxAirports : List Airport :=
  [⟨"JFK", 40, -73, "John F Kennedy Intl", "JFK"⟩,
   ⟨"LAX", 33, -118, "Los Angeles Intl", "LAX"⟩]

/-- Claim C1 is refuted by the code (code bug): invoking
`origin_airport_analysis` with a `None` origin and a valid metric assigns
the `Hour` column on `df_routes`, which in that branch aliases the shared
`sample10_df`, so a new column is added to a startup table in place. -/
theorem c1_hour_column_added_to_shared_sample :
    (origin_airport_analysis none "flights" fxRows fxAirports).2
      = ⟨fxRows, [("Hour", [9, 13])]⟩
    ∧ (origin_airport_analysis none "flights" fxRows fxAirports).2.extraCols ≠ [] := by
  constructor
  · decide
  · decide

/-- Claim C2 (as stated) is false: `update_map_and_chart` with an
unrecognised metric raises the unassigned-variable error instead of
returning empty chart objects. -/
theorem c2_counterexample_unrecognised_metric_raises :
    updateMapAndChart "Bogus" [MonthSel.all] fxRows fxAirports
      = .error "UnboundLocalError: top_airports" := by
  decide

/-- Claim C2 (amended): a `None` origin in `dynamic_dropdown` and a `None`
Origin or Destination in `flight_connection_analysis_update` short-circuit
to empty outputs without raising; but when the selected metric is not one
of the recognised values, `update_map_and_chart` raises the
unassigned-variable error (only the bar-chart builder by itself falls back
to an empty placeholder chart). -/
theorem c2_missing_selection_short_circuits :
    (∀ s a, dynamic_dropdown none s a = ([], DropMessage.emptyDiv))
    ∧ (∀ d tf s, flight_connection_analysis_update none d tf s
        = (.ok (.emptyFig, .emptyFig, .emptyFig, .emptyFig), ⟨s, []⟩))
    ∧ (∀ o tf s, flight_connection_analysis_update o none tf s
        = (.ok (.emptyFig, .emptyFig, .emptyFig, .emptyFig), ⟨s, []⟩))
    ∧ (∀ m sel s a, m ≠ "ArrDelay" → m ≠ "Cancelled" → m ≠ "NonCarrierDelay" →
        m ≠ "DepDelay" →
        updateMapAndChart m sel s a = .error "UnboundLocalError: top_airports")
    ∧ (∀ data m, m ≠ "ArrDelay" → m ≠ "Cancelled" → m ≠ "NonCarrierDelay" →
        m ≠ "DepDelay" →
        create_metric_chart data m = ⟨[], "Select a metric to view data"⟩) := by
  refine ⟨fun s a => rfl, fun d tf s => rfl, fun o tf s => ?_, ?_, ?_⟩
  · cases o <;> rfl
  · intro m sel s a h1 h2 h3 h4
    exact updateMapAndChart_invalid_metric m sel s a h1 h2 h3 h4
  · intro data m h1 h2 h3 h4
    unfold create_metric_chart
    simp [h1, h2, h3, h4]

/-- Witness for C2 at concrete inputs. -/
theorem c2_missing_selection_short_circuits_witness :
    dynamic_dropdown none fxRows fxAirports = ([], DropMessage.emptyDiv)
    ∧ updateMapAndChart "Metric" [MonthSel.all] fxRows fxAirports
        = .error "UnboundLocalError: top_airports" :=
  ⟨c2_missing_selection_short_circuits.1 fxRows fxAirports,
   c2_missing_selection_short_circuits.2.2.2.1 "Metric" [MonthSel.all] fxRows fxAirports
     (by decide) (by decide) (by decide) (by decide)⟩

/-- The twelve-month selection `[1, ..., 12]`. -/
def allTwelveMonths : List MonthSel :=
  [.num 1, .num 2, .num 3, .num 4, .num 5, .num 6, .num 7, .num 8, .num 9,
   .num 10, .num 11, .num 12]

theorem filterMonths_all_eq_twelve (sel : List MonthSel) (s : List Flight)
    (hall : MonthSel.all ∈ sel) (hm : ∀ r ∈ s, 1 ≤ r.month ∧ r.month ≤ 12) :
    filterMonths sel s = filterMonths allTwelveMonths s := by
  unfold filterMonths
  rw [if_pos hall, if_neg (by decide)]
  symm
  rw [List.filter_eq_self]
  intro r hr
  have h12 := hm r hr
  have hd : r.month = 1 ∨ r.month = 2 ∨ r.month = 3 ∨ r.month = 4 ∨ r.month = 5
      ∨ r.month = 6 ∨ r.month = 7 ∨ r.month = 8 ∨ r.month = 9 ∨ r.month = 10
      ∨ r.month = 11 ∨ r.month = 12 := by omega
  rcases hd with h | h | h | h | h | h | h | h | h | h | h | h <;> rw [h] <;> decide

/-- Claim C3: for any metric, running the first-tab callback with a month
selection containing `'All'` gives the same output as running it with the
explicit selection of all twelve months, provided every `Month` value of
the sampled table lies in 1..12. -/
theorem c3_all_months_equals_union_of_months (m : String) (sel : List MonthSel)
    (s : List Flight) (a : List Airport) (hall : MonthSel.all ∈ sel)
    (hm : ∀ r ∈ s, 1 ≤ r.month ∧ r.month ≤ 12) :
    updateMapAndChart m sel s a = updateMapAndChart m allTwelveMonths s a := by
  unfold updateMapAndChart
  rw [filterMonths_all_eq_twelve sel s hall hm]

/-- Witness for C3 at concrete inputs. -/
theorem c3_all_months_witness :
    MonthSel.all ∈ [MonthSel.all]
    ∧ (∀ r ∈ fxRows, 1 ≤ r.month ∧ r.month ≤ 12)
    ∧ updateMapAndChart "ArrDelay" [MonthSel.all] fxRows fxAirports
        = updateMapAndChart "ArrDelay" allTwelveMonths fxRows fxAirports :=
  ⟨by decide, by decide,
   c3_all_months_equals_union_of_months "ArrDelay" [MonthSel.all] fxRows fxAirports
     (by decide) (by decide)⟩

/-- Claim C7 (sampler modelled from the spec, since `DataFrame.sample` is
pandas library code): with `random_state=11` fixed, the startup sample is
determined by the input table alone — the ambient entropy that
distinguishes two runs of the program never influences it — so the sampled
rows (same rows, same order) and the downstream aggregate tables agree
between any two runs on the same input files. -/
theorem c7_fixed_seed_sample_deterministic (df : List Flight) (e1 e2 : Nat) :
    startupSample df e1 = startupSample df e2
    ∧ arrDelayTable (startupSample df e1) = arrDelayTable (startupSample df e2)
    ∧ avgMetricsTable (startupSample df e1) = avgMetricsTable (startupSample df e2) :=
  ⟨rfl, rfl, rfl⟩

/-- Claim C8: the first-tab callback is total exactly on the four
recognised metrics, and the origin-analysis callback exactly on
`'flights'` and `'delay'`; outside those preconditions the respective
unassigned-local-variable branch is reached. -/
theorem c8_metric_preconditions_totality :
    (∀ m sel s a,
        (m = "ArrDelay" ∨ m = "Cancelled" ∨ m = "NonCarrierDelay" ∨ m = "DepDelay") →
        ∃ out, updateMapAndChart m sel s a = .ok out)
    ∧ (∀ m sel s a, m ≠ "ArrDelay" → m ≠ "Cancelled" → m ≠ "NonCarrierDelay" →
        m ≠ "DepDelay" →
        updateMapAndChart m sel s a = .error "UnboundLocalError: top_airports")
    ∧ (∀ o m s a, (m = "flights" ∨ m = "delay") →
        ∃ out, (origin_airport_analysis o m s a).1 = .ok out)
    ∧ (∀ o m s a, m ≠ "flights" → m ≠ "delay" →
        (origin_airport_analysis o m s a).1 = .error "UnboundLocalError: y_val") := by
  refine ⟨updateMapAndChart_valid_metric, updateMapAndChart_invalid_metric, ?_, ?_⟩
  · intro o m s a h
    obtain ⟨out, hout⟩ := origin_analysis_valid_metric o m s a h
    exact ⟨out, by rw [hout]⟩
  · intro o m s a h1 h2
    rw [origin_analysis_invalid_metric o m s a h1 h2]

/-- Witness for C8 at concrete inputs. -/
theorem c8_metric_preconditions_witness :
    (∃ out, updateMapAndChart "ArrDelay" [MonthSel.all] fxRows fxAirports = .ok out)
    ∧ updateMapAndChart "Metric2" [MonthSel.all] fxRows fxAirports
        = .error "UnboundLocalError: top_airports"
    ∧ (∃ out, (origin_airport_analysis (some "JFK") "flights" fxRows fxAirports).1 = .ok out)
    ∧ (origin_airport_analysis (some "JFK") "metric" fxRows fxAirports).1
        = .error "UnboundLocalError: y_val" :=
  ⟨c8_metric_preconditions_totality.1 "ArrDelay" [MonthSel.all] fxRows fxAirports
     (Or.inl rfl),
   c8_metric_preconditions_totality.2.1 "Metric2" [MonthSel.all] fxRows fxAirports
     (by decide) (by decide) (by decide) (by decide),
   c8_metric_preconditions_totality.2.2.1 (some "JFK") "flights" fxRows fxAirports
     (Or.inl rfl),
   c8_metric_preconditions_totality.2.2.2 (some "JFK") "metric" fxRows fxAirports
     (by decide) (by decide)⟩

/-- Claim C10: when both endpoints are selected but the sample has no row
for the connection, the connection callback returns four empty figures and
the shared sample table is unchanged (no extra column, same rows). -/
theorem c10_no_matching_rows_empty_figures (o d tf : String) (s : List Flight)
    (h : s.filter (fun r => decide (r.origin = o) && decide (r.dest = d)) = []) :
    flight_connection_analysis_update (some o) (some d) tf s
      = (.ok (.emptyFig, .emptyFig, .emptyFig, .emptyFig), ⟨s, []⟩) := by
  unfold flight_connection_analysis_update
  simp [h]

/-- Witness for C10 at concrete inputs. -/
theorem c10_no_matching_rows_witness :
    fxRows.filter (fun r => decide (r.origin = "ABQ") && decide (r.dest = "ORD")) = []
    ∧ flight_connection_analysis_update (some "ABQ") (some "ORD") "Day" fxRows
        = (.ok (.emptyFig, .emptyFig, .emptyFig, .emptyFig), ⟨fxRows, []⟩) :=
  ⟨by decide, c10_no_matching_rows_empty_figures "ABQ" "ORD" "Day" fxRows (by decide)⟩

theorem length_filter_cancelled (g : List Flight) :
    ((g.map (·.cancelled)).filter (fun x => decide (x = 1))).length
      = (g.filter (fun r => decide (r.cancelled = 1))).length := by
  induction g with
  | nil => rfl
  | cons r rs ih =>
    cases h : decide (r.cancelled = 1) <;> simp [List.filter_cons, h, ih]

/-- Claim C4: on any month-filtered subset, the callback's per-destination
`Avg_ArrDelay` is the arithmetic mean of that destination's `ArrDelay`
values, and its per-origin `Pct_Cancelled` is 100 times the fraction of
that origin's flights whose `Cancelled` flag is 1 (the flag hypothesis
states the column is 0/1-valued). -/
theorem c4_aggregates_match_manual (sel : List MonthSel) (s : List Flight)
    (hflag : ∀ r ∈ s, r.cancelled = 0 ∨ r.cancelled = 1) :
    (∀ p ∈ arrDelayTable (filterMonths sel s),
        p.2 = manualAvgArrDelay (filterMonths sel s) p.1)
    ∧ (∀ row ∈ avgMetricsTable (filterMonths sel s),
        row.pct_Cancelled = manualPctCancelled (filterMonths sel s) row.origin) := by
  constructor
  · intro p hp
    unfold arrDelayTable at hp
    obtain ⟨d, hd, rfl⟩ := List.mem_map.mp hp
    unfold manualAvgArrDelay pandasMean
    simp [List.length_map]
  · intro row hrow
    unfold avgMetricsTable at hrow
    obtain ⟨o, ho, rfl⟩ := List.mem_map.mp hrow
    dsimp only
    have hall : ∀ x ∈ ((filterMonths sel s).filter
        (fun r => decide (r.origin = o))).map (·.cancelled), x = 0 ∨ x = 1 := by
      intro x hx
      obtain ⟨r, hr, rfl⟩ := List.mem_map.mp hx
      exact hflag r (mem_filterMonths (List.mem_of_mem_filter hr))
    unfold manualPctCancelled pandasMean
    rw [sum_eq_count_ones _ hall, length_filter_cancelled, List.length_map]
    ring

/-- Witness for C4 at concrete inputs. -/
theorem c4_aggregates_match_manual_witness :
    (∀ r ∈ fxRows, r.cancelled = 0 ∨ r.cancelled = 1)
    ∧ ((∀ p ∈ arrDelayTable (filterMonths [MonthSel.all] fxRows),
          p.2 = manualAvgArrDelay (filterMonths [MonthSel.all] fxRows) p.1)
       ∧ (∀ row ∈ avgMetricsTable (filterMonths [MonthSel.all] fxRows),
          row.pct_Cancelled
            = manualPctCancelled (filterMonths [MonthSel.all] fxRows) row.origin)) :=
  ⟨by decide, c4_aggregates_match_manual [MonthSel.all] fxRows (by decide)⟩

/-- Claim C5: in the computed per-origin metrics table, the
`Avg_NonCarrierDelay` column (the sum of the four per-group component
means) equals the glossary's non-carrier delay of the group: the per-group
mean of the per-flight sums of the weather, security, NAS and
late-aircraft delay minutes. -/
theorem c5_noncarrier_sum_of_means_is_mean_of_sums (sel : List MonthSel)
    (s : List Flight) :
    ∀ row ∈ avgMetricsTable (filterMonths sel s),
      row.avg_NonCarrierDelay
        = manualAvgNonCarrierDelay (filterMonths sel s) row.origin := by
  intro row hrow
  unfold avgMetricsTable at hrow
  obtain ⟨o, ho, rfl⟩ := List.mem_map.mp hrow
  dsimp only
  unfold manualAvgNonCarrierDelay pandasMean
  rw [sum_map_delays]
  simp only [List.length_map]
  ring

/-- Witness for C5 at concrete inputs: the fixture table has one origin
group, and its computed column satisfies the glossary definition. -/
theorem c5_noncarrier_witness :
    (avgMetricsTable (filterMonths [MonthSel.all] fxRows)).length = 1
    ∧ (∀ row ∈ avgMetricsTable (filterMonths [MonthSel.all] fxRows),
        row.avg_NonCarrierDelay
          = manualAvgNonCarrierDelay (filterMonths [MonthSel.all] fxRows) row.origin) :=
  ⟨by decide, c5_noncarrier_sum_of_means_is_mean_of_sums [MonthSel.all] fxRows⟩

/-- Claim C6 (as stated) is false: the monthly flight-count line chart is
computed from the full sampled table, not the month-filtered subset, so
two sampled tables that agree on the selected months can still yield
different callback outputs. -/
theorem c6_counterexample_line_chart_uses_full_table :
    filterMonths [MonthSel.num 1] [f2] = filterMonths [MonthSel.num 1] ([] : List Flight)
    ∧ updateMapAndChart "ArrDelay" [MonthSel.num 1] [f2] fxAirports
        ≠ updateMapAndChart "ArrDelay" [MonthSel.num 1] [] fxAirports := by
  constructor
  · decide
  · decide

/-- Claim C6 (amended): the per-destination arrival-delay table, the
per-origin metrics table, and the map and bar figures are functions of the
month-filtered subset (and the metric and airport table) alone; the
monthly flight-count series behind the line chart is instead computed from
the full sampled table. -/
theorem c6_summary_depends_on_filtered_subset (m : String) (sel : List MonthSel)
    (s1 s2 : List Flight) (a : List Airport)
    (h : filterMonths sel s1 = filterMonths sel s2) :
    arrDelayTable (filterMonths sel s1) = arrDelayTable (filterMonths sel s2)
    ∧ avgMetricsTable (filterMonths sel s1) = avgMetricsTable (filterMonths sel s2)
    ∧ mapAndChartOf m (filterMonths sel s1) a = mapAndChartOf m (filterMonths sel s2) a
    ∧ (∀ s : List Flight, updateMapAndChart m sel s a
        = (mapAndChartOf m (filterMonths sel s) a).map (fun p => (p.1, p.2, lineChartOf s))) :=
  ⟨by rw [h], by rw [h], by rw [h], fun s => rfl⟩

/-- Witness for C6 at concrete inputs: two different sampled tables that
agree on January. -/
theorem c6_summary_depends_witness :
    filterMonths [MonthSel.num 1] fxRows = filterMonths [MonthSel.num 1] [f1]
    ∧ (arrDelayTable (filterMonths [MonthSel.num 1] fxRows)
        = arrDelayTable (filterMonths [MonthSel.num 1] [f1])
       ∧ avgMetricsTable (filterMonths [MonthSel.num 1] fxRows)
        = avgMetricsTable (filterMonths [MonthSel.num 1] [f1])
       ∧ mapAndChartOf "ArrDelay" (filterMonths [MonthSel.num 1] fxRows) fxAirports
        = mapAndChartOf "ArrDelay" (filterMonths [MonthSel.num 1] [f1]) fxAirports
       ∧ (∀ s : List Flight, updateMapAndChart "ArrDelay" [MonthSel.num 1] s fxAirports
        = (mapAndChartOf "ArrDelay" (filterMonths [MonthSel.num 1] s) fxAirports).map
            (fun p => (p.1, p.2, lineChartOf s)))) :=
  ⟨by decide,
   c6_summary_depends_on_filtered_subset "ArrDelay" [MonthSel.num 1] fxRows [f1]
     fxAirports (by decide)⟩

/-- Claim C9: for a selected origin, the number of destination options
returned equals the count shown in the message, and — when the reference
table's `iata_code` column has no duplicates — that count is the number of
distinct destinations reachable from the origin in the sample that also
appear as an `iata_code`; reachable destinations missing from the
reference table are dropped. -/
theorem c9_dropdown_count_matches_message (o : String) (s : List Flight)
    (a : List Airport) (hnodup : (a.map (·.iata_code)).Nodup) :
    (dynamic_dropdown (some o) s a).2
      = DropMessage.countMsg (dynamic_dropdown (some o) s a).1.length
    ∧ (dynamic_dropdown (some o) s a).1.length = reachableListedCount o s a := by
  unfold dynamic_dropdown reachableListedCount
  dsimp only
  rw [List.length_map]
  refine ⟨rfl, ?_⟩
  rw [length_filter_iata]
  exact length_filter_mem_comm (a.map (·.iata_code))
    (((s.filter (fun r => decide (r.origin = o))).map (·.dest)).dedup)
    hnodup (List.nodup_dedup _)

/-- Witness for C9 at concrete inputs. -/
theorem c9_dropdown_count_witness :
    (fxAirports.map (·.iata_code)).Nodup
    ∧ ((dynamic_dropdown (some "JFK") fxRows fxAirports).2
        = DropMessage.countMsg (dynamic_dropdown (some "JFK") fxRows fxAirports).1.length
       ∧ (dynamic_dropdown (some "JFK") fxRows fxAirports).1.length
        = reachableListedCount "JFK" fxRows fxAirports) :=
  ⟨by decide, c9_dropdown_count_matches_message "JFK" fxRows fxAirports (by decide)⟩
